import Mathlib

/-!
Verification of the admin-dashboard logic of the Afrodoctor website
(`ProductCatalogAdmin` and its helpers in `src/components/Login.tsx`),
shallowly embedded in Lean: plan fetching/sorting, feature normalization,
media-file-name sanitization, toast management, the delete-confirmation
flow, and error handling of the backend operations.
-/

namespace Afrodoctor

/-! ### JavaScript string primitives used by the component

The component uses `split(',')`, `trim()`, `join(', ')`,
`replace(/[^a-z0-9.]/gi, '_')` and `toLowerCase()`. They are embedded
structurally over the underlying character lists so that all definitions
evaluate inside the kernel. -/

/-- `String.prototype.split(',')` scanning the character list; `acc` holds the
current segment in reverse. `"".split(',')` is `[""]` and a trailing comma
yields a trailing empty segment, as in JS. -/
def splitCommaAux : List Char → List Char → List (List Char)
  | [], acc => [acc.reverse]
  | c :: cs, acc =>
    if c = ',' then acc.reverse :: splitCommaAux cs []
    else splitCommaAux cs (c :: acc)

/-- `s.split(',')`. -/
def jsSplitComma (s : String) : List String :=
  (splitCommaAux s.data []).map String.mk

/-- `String.prototype.trim()`: strip leading and trailing whitespace. -/
def jsTrim (s : String) : String :=
  String.mk (((s.data.dropWhile Char.isWhitespace).reverse.dropWhile
    Char.isWhitespace).reverse)

/-- `Array.prototype.join(', ')`. -/
def joinCommaSpace : List String → String
  | [] => ""
  | [s] => s
  | s :: ss => s ++ ", " ++ joinCommaSpace ss

/-- The character class kept by `replace(/[^a-z0-9.]/gi, '_')`: ASCII letters
(either case, because of the `i` flag), digits, and the dot. -/
def isSafeChar (c : Char) : Bool :=
  ('a' ≤ c && c ≤ 'z') || ('A' ≤ c && c ≤ 'Z') || ('0' ≤ c && c ≤ '9') || c == '.'

/-- `name.replace(/[^a-z0-9.]/gi, '_')`: every character outside the safe
class is replaced by an underscore. -/
def jsReplaceUnsafe (s : String) : String :=
  String.mk (s.data.map (fun c => if isSafeChar c then c else '_'))

/-- `String.prototype.toLowerCase()`; on the ASCII range produced by the
preceding `replace` this is exactly `Char.toLower` character-wise. -/
def jsToLowerCase (s : String) : String :=
  String.mk (s.data.map Char.toLower)

/-! ### Toast management (`addToast` / `removeToast`) -/

/-- Severity of a toast notification: `'success' | 'error' | 'info'`. -/
inductive ToastType where
  | success
  | error
  | info
deriving DecidableEq, Repr

/-- `interface ToastMessage { id: string; message: string; type: … }`. -/
structure ToastMessage where
  id : String
  message : String
  type : ToastType
deriving DecidableEq, Repr

/-- `addToast`: the identifier is `Date.now().toString()` where `now` is the
millisecond clock at insertion time, and the new toast is appended
(`setToasts(prev => [...prev, { id, message, type }])`). -/
def addToast (now : Nat) (message : String) (type : ToastType)
    (toasts : List ToastMessage) : List ToastMessage :=
  toasts ++ [{ id := toString now, message := message, type := type }]

/-- `removeToast` and the scheduled auto-removal both run
`prev.filter(toast => toast.id !== id)`. -/
def removeToast (id : String) (toasts : List ToastMessage) : List ToastMessage :=
  toasts.filter (fun toast => toast.id != id)

/-! ### Plans: rows, parsing, and the `fetchPlans` sort -/

/-- A raw row of the `hms_plans` table as returned by `select('*')`.
`features` and `created_at` are nullable; `created_at` is modelled as the
already-extracted timestamp in seconds
(`new Date(d.created_at).getTime() / 1000`). -/
structure PlanRow where
  id : String
  name : String
  price : String
  features : Option String
  is_primary : Bool
  created_at : Option Nat
deriving DecidableEq, Repr

/-- `interface HMSPlan`; the optional `createdAt?: { seconds: number }` is
modelled as `Option Nat`. -/
structure HMSPlan where
  id : String
  name : String
  price : String
  features : List String
  isPrimary : Bool
  createdAt : Option Nat
deriving DecidableEq, Repr

/-- `s.split(',').map(f => f.trim()).filter(Boolean)`: split on commas, trim
each segment, drop segments empty after trimming (`""` is falsy in JS). -/
def parseFeatures (s : String) : List String :=
  ((jsSplitComma s).map jsTrim).filter (fun f => f != "")

/-- The row-to-plan mapping inside `fetchPlans`. A null `features` column is
falsy in JS (`d.features ? … : []`), yielding the empty feature list. -/
def parsePlanRow (d : PlanRow) : HMSPlan :=
  { id := d.id
    name := d.name
    price := d.price
    features := match d.features with
      | some s => parseFeatures s
      | none => []
    isPrimary := d.is_primary
    createdAt := d.created_at }

/-- `p.createdAt?.seconds || 0`. -/
def createdSeconds (p : HMSPlan) : Nat := p.createdAt.getD 0

/-- The comparator passed to `fetchedPlans.sort`, expressed as the total
preorder `planLe a b ↔ comparator(a, b) ≤ 0`: when the primary flags differ
the comparator returns `a.isPrimary ? -1 : 1`, otherwise it returns
`createdSeconds a - createdSeconds b`. -/
def planLe (a b : HMSPlan) : Bool :=
  if a.isPrimary != b.isPrimary then a.isPrimary
  else decide (createdSeconds a ≤ createdSeconds b)

/-- The successful data path of `fetchPlans`: map the fetched rows to plans
and sort with the comparator. JS `Array.prototype.sort` with a consistent
comparator produces a permutation of the input sorted with respect to the
comparator; it is modelled with `List.mergeSort`. -/
def fetchPlansRows (rows : List PlanRow) : List HMSPlan :=
  (rows.map parsePlanRow).mergeSort planLe

theorem planLe_trans (a b c : HMSPlan) : planLe a b → planLe b c → planLe a c := by
  simp only [planLe]
  cases ha : a.isPrimary <;> cases hb : b.isPrimary <;> cases hc : c.isPrimary <;>
    simp_all <;> omega

theorem planLe_total (a b : HMSPlan) : planLe a b || planLe b a := by
  simp only [planLe]
  cases ha : a.isPrimary <;> cases hb : b.isPrimary <;> simp_all <;> omega

/-- Claim C1: for every fetched plan list, the sort in `fetchPlans` places
every primary-flagged plan before every non-primary plan, and within each of
the two groups a plan with earlier creation time precedes a plan with later
creation time. -/
theorem fetchPlans_primary_first_then_created_asc (rows : List PlanRow) :
    (fetchPlansRows rows).Pairwise (fun a b =>
      (b.isPrimary = true → a.isPrimary = true) ∧
      (a.isPrimary = b.isPrimary → createdSeconds a ≤ createdSeconds b)) := by
  have h := List.sorted_mergeSort planLe_trans planLe_total (rows.map parsePlanRow)
  refine List.Pairwise.imp ?_ h
  intro a b hab
  revert hab
  simp only [planLe]
  cases ha : a.isPrimary <;> cases hb : b.isPrimary <;> simp_all

/-- Witness for C1: the theorem evaluated at a concrete two-row fetch. -/
theorem fetchPlans_primary_first_then_created_asc_witness :
    (fetchPlansRows
      [{ id := "1", name := "A", price := "$1", features := some ("x"),
         is_primary := false, created_at := some 5 },
       { id := "2", name := "B", price := "$2", features := none,
         is_primary := true, created_at := some 9 }]).Pairwise (fun a b =>
      (b.isPrimary = true → a.isPrimary = true) ∧
      (a.isPrimary = b.isPrimary → createdSeconds a ≤ createdSeconds b)) :=
  fetchPlans_primary_first_then_created_asc _

/-! ### Feature normalization in `handleAddPlan` -/

/-- The payload feature text in `handleAddPlan`:
`newPlan.features.split(',').map(f => f.trim()).filter(Boolean).join(', ')`. -/
def normalizeFeatures (s : String) : String :=
  joinCommaSpace (((jsSplitComma s).map jsTrim).filter (fun f => f != ""))

/-- Claim C4: for the feature input string `"a, ,b,,c "` the stored feature
text produced by the add-plan normalization equals `"a, b, c"`. -/
theorem normalizeFeatures_example : normalizeFeatures ("a, ,b,,c ") = "a, b, c" := by
  decide

/-! ### Media file-name sanitization in `handleMediaUpload` -/

/-- The sanitization applied to the uploaded file's original name:
`uploadFile.name.replace(/[^a-z0-9.]/gi, '_').toLowerCase()`. -/
def sanitizeFileName (name : String) : String :=
  jsToLowerCase (jsReplaceUnsafe name)

/-- `const safeFileName = ` the millisecond clock, an underscore, and the
sanitized original name. -/
def safeFileName (now : Nat) (name : String) : String :=
  toString now ++ "_" ++ sanitizeFileName name

theorem string_append_assoc (a b c : String) : a ++ b ++ c = a ++ (b ++ c) := by
  rcases a with ⟨la⟩
  rcases b with ⟨lb⟩
  rcases c with ⟨lc⟩
  show String.mk (la ++ lb ++ lc) = String.mk (la ++ (lb ++ lc))
  rw [List.append_assoc]

/-- Claim C6: uploading a file named `"My Photo!.png"` when the client clock
reads `t` produces the stored file name `${t}_my_photo_.png`. -/
theorem safeFileName_my_photo (t : Nat) :
    safeFileName t ("My Photo!.png") = toString t ++ "_my_photo_.png" := by
  have h : sanitizeFileName ("My Photo!.png") = "my_photo_.png" := by decide
  rw [safeFileName, h, string_append_assoc]
  rfl

/-- Witness for C6: the theorem applied at the concrete instant `1700000000000`. -/
theorem safeFileName_my_photo_witness :
    safeFileName 1700000000000 ("My Photo!.png") =
      toString 1700000000000 ++ "_my_photo_.png" :=
  safeFileName_my_photo 1700000000000

/-- Counterexample for C7: the sanitized name of `"My Photo!.png"` contains
the underscore, which is neither a letter, nor a digit, nor a dot — the
sanitized alphabet is NOT restricted to alphanumerics and dots. -/
theorem sanitizeFileName_contains_underscore :
    '_' ∈ (sanitizeFileName ("My Photo!.png")).data ∧
      ('_'.isAlphanum || '_' == '.') = false := by
  decide

theorem toNat_charOfNat_of_valid {n : Nat} (h : n < 55296) :
    (Char.ofNat n).toNat = n := by
  have hv : n.isValidChar := Or.inl h
  simp [Char.ofNat, hv, Char.ofNatAux, Char.toNat, UInt32.ofNat', BitVec.ofNatLt,
    UInt32.toNat]

theorem charLe_iff {a b : Char} : a ≤ b ↔ a.toNat ≤ b.toNat := Iff.rfl

theorem isLower_iff {c : Char} : c.isLower = true ↔ 97 ≤ c.toNat ∧ c.toNat ≤ 122 := by
  simp [Char.isLower, UInt32.le_def, BitVec.le_def, Char.toNat, UInt32.toNat, ge_iff_le]

theorem isDigit_iff {c : Char} : c.isDigit = true ↔ 48 ≤ c.toNat ∧ c.toNat ≤ 57 := by
  simp [Char.isDigit, UInt32.le_def, BitVec.le_def, Char.toNat, UInt32.toNat, ge_iff_le]

theorem toLower_toNat_of_upper {c : Char} (h1 : 65 ≤ c.toNat) (h2 : c.toNat ≤ 90) :
    c.toLower.toNat = c.toNat + 32 := by
  simp only [Char.toLower]
  rw [if_pos ⟨h1, h2⟩]
  exact toNat_charOfNat_of_valid (by omega)

theorem toLower_of_not_upper {c : Char} (h : ¬(65 ≤ c.toNat ∧ c.toNat ≤ 90)) :
    c.toLower = c := by
  simp only [Char.toLower]
  rw [if_neg h]

theorem sanitized_char_cases (c : Char) :
    ((if isSafeChar c then c else '_').toLower.isLower
      || (if isSafeChar c then c else '_').toLower.isDigit
      || ((if isSafeChar c then c else '_').toLower == '.')
      || ((if isSafeChar c then c else '_').toLower == '_')) = true := by
  by_cases hs : isSafeChar c = true
  · rw [if_pos hs]
    simp only [isSafeChar, Bool.or_eq_true, Bool.and_eq_true, decide_eq_true_eq,
      beq_iff_eq] at hs
    rcases hs with ((⟨h1, h2⟩ | ⟨h1, h2⟩) | ⟨h1, h2⟩) | h
    · have h1' : 97 ≤ c.toNat := charLe_iff.mp h1
      have h2' : c.toNat ≤ 122 := charLe_iff.mp h2
      rw [toLower_of_not_upper (by omega)]
      simp only [Bool.or_eq_true]
      exact Or.inl (Or.inl (Or.inl (isLower_iff.mpr ⟨h1', h2'⟩)))
    · have h1' : 65 ≤ c.toNat := charLe_iff.mp h1
      have h2' : c.toNat ≤ 90 := charLe_iff.mp h2
      have hl := toLower_toNat_of_upper h1' h2'
      simp only [Bool.or_eq_true]
      exact Or.inl (Or.inl (Or.inl (isLower_iff.mpr (by omega))))
    · have h1' : 48 ≤ c.toNat := charLe_iff.mp h1
      have h2' : c.toNat ≤ 57 := charLe_iff.mp h2
      rw [toLower_of_not_upper (by omega)]
      simp only [Bool.or_eq_true]
      exact Or.inl (Or.inl (Or.inr (isDigit_iff.mpr ⟨h1', h2'⟩)))
    · subst h
      decide
  · rw [if_neg hs]
    decide

/-- Amended C7: for every uploaded file, each character of the sanitized
stored file name is a lowercase letter, a digit, a dot, or an underscore
(the replacement character itself). -/
theorem sanitizeFileName_chars (name : String) (c : Char)
    (h : c ∈ (sanitizeFileName name).data) :
    c.isLower = true ∨ c.isDigit = true ∨ c = '.' ∨ c = '_' := by
  have hd : (sanitizeFileName name).data =
      name.data.map (fun a => (if isSafeChar a then a else '_').toLower) := by
    simp [sanitizeFileName, jsToLowerCase, jsReplaceUnsafe, List.map_map,
      Function.comp]
  rw [hd] at h
  rcases List.mem_map.mp h with ⟨a, _, rfl⟩
  have := sanitized_char_cases a
  simp only [Bool.or_eq_true, beq_iff_eq] at this
  tauto

/-- Witness for the amended C7: the character `'m'` of the sanitized name of
`"My Photo!.png"`. -/
theorem sanitizeFileName_chars_witness :
    'm' ∈ (sanitizeFileName ("My Photo!.png")).data ∧
      ('m'.isLower = true ∨ 'm'.isDigit = true ∨ 'm' = '.' ∨ 'm' = '_') :=
  ⟨by decide, sanitizeFileName_chars ("My Photo!.png") 'm' (by decide)⟩

/-! ### Toast identifiers and removal (C10) -/

/-- Claim C10: toast identifiers are the string form of the insertion-time
millisecond clock — two toasts inserted during the same millisecond `now`
receive equal identifiers — and removal by identifier removes every toast
carrying that identifier (and only those). -/
theorem addToast_same_ms_and_removeToast_all :
    (∀ (now : Nat) (m₁ m₂ : String) (ty₁ ty₂ : ToastType) (l : List ToastMessage),
      ∃ t₁ t₂ : ToastMessage,
        addToast now m₂ ty₂ (addToast now m₁ ty₁ l) = l ++ [t₁, t₂] ∧
        t₁.id = toString now ∧ t₂.id = toString now) ∧
    (∀ (i : String) (l : List ToastMessage) (t : ToastMessage),
      t ∈ removeToast i l ↔ t ∈ l ∧ t.id ≠ i) := by
  constructor
  · intro now m₁ m₂ ty₁ ty₂ l
    exact ⟨{ id := toString now, message := m₁, type := ty₁ },
           { id := toString now, message := m₂, type := ty₂ },
           by simp [addToast], rfl, rfl⟩
  · intro i l t
    simp [removeToast, List.mem_filter]

/-- Witness for C10: both conjuncts instantiated at concrete toasts inserted
in millisecond 7. -/
theorem addToast_same_ms_and_removeToast_all_witness :
    (∃ t₁ t₂ : ToastMessage,
      addToast 7 ("b") ToastType.error (addToast 7 ("a") ToastType.success []) =
        [] ++ [t₁, t₂] ∧ t₁.id = toString 7 ∧ t₂.id = toString 7) ∧
    ((⟨"7", "a", ToastType.success⟩ : ToastMessage) ∈
        removeToast ("9") [⟨"7", "a", ToastType.success⟩] ↔
      (⟨"7", "a", ToastType.success⟩ : ToastMessage) ∈
        [(⟨"7", "a", ToastType.success⟩ : ToastMessage)] ∧ "7" ≠ "9") :=
  ⟨addToast_same_ms_and_removeToast_all.1 7 ("a") ("b") ToastType.success ToastType.error [],
   addToast_same_ms_and_removeToast_all.2 ("9") _ _⟩

/-! ### The Synchronization Controller: state, backend model, operations

Each operation of `ProductCatalogAdmin` is embedded as a function from the
outcome of its backend calls (one `Bool` per fallible call, `true` = the call
succeeded), the remote state, and the component state, to the new remote
state, the new component state, and the list of backend calls it issued.
All `try`/`catch` boundaries of the source are reflected in the branching. -/

/-- A raw row of the `image_catalogue` table; `uploaded_at` is modelled as
the already-extracted timestamp in seconds. -/
structure MediaRow where
  id : String
  file_name : String
  url : String
  uploaded_at : Option Nat
deriving DecidableEq, Repr

/-- `interface MediaItem`; `uploadedAt: { seconds: number }`, defaulted to 0
when the column is null (`d.uploaded_at ? … : { seconds: 0 }`). -/
structure MediaItem where
  id : String
  fileName : String
  url : String
  uploadedAt : Nat
deriving DecidableEq, Repr

/-- The `type` field of `interface ItemToDelete`: `'plan' | 'media'`. -/
inductive ItemType where
  | plan
  | media
deriving DecidableEq, Repr

/-- `interface ItemToDelete`. -/
structure ItemToDelete where
  id : String
  type : ItemType
  name : String
deriving DecidableEq, Repr

/-- `interface NewPlanData` (the add-plan form). -/
structure NewPlanData where
  name : String
  price : String
  features : String
  isPrimary : Bool
deriving DecidableEq, Repr

/-- The remote backend state visible to the component: the two tables and the
stored object paths of the `artifacts` bucket. -/
structure RemoteState where
  plansTable : List PlanRow
  mediaTable : List MediaRow
  storagePaths : List String
deriving DecidableEq, Repr

/-- The component state of `ProductCatalogAdmin` relevant to the claims. -/
structure AdminState where
  plans : List HMSPlan
  mediaItems : List MediaItem
  errorMsg : Option String
  toasts : List ToastMessage
  showDeleteModal : Bool
  itemToDelete : Option ItemToDelete
  isAdmin : Bool
deriving DecidableEq, Repr

/-- The backend calls an operation can issue (the Remote Data Gateway).
A call that fails still appears in the trace: it was issued. -/
inductive BackendCall where
  | selectPlans
  | insertPlan (row : PlanRow)
  | deletePlanRow (id : String)
  | selectMedia
  | selectMediaFileName (id : String)
  | storageUpload (path : String)
  | storageRemove (path : String)
  | insertMediaRow (row : MediaRow)
  | deleteMediaRow (id : String)
deriving DecidableEq, Repr

/-- The row-to-item mapping inside `fetchMedia`. -/
def parseMediaRow (d : MediaRow) : MediaItem :=
  { id := d.id
    fileName := d.file_name
    url := d.url
    uploadedAt := d.uploaded_at.getD 0 }

/-- The server-side ordering `.order('uploaded_at', { ascending: false })`,
modelled as a sort of the table by descending timestamp. -/
def mediaRowDescLe (a b : MediaRow) : Bool :=
  decide (b.uploaded_at.getD 0 ≤ a.uploaded_at.getD 0)

/-- The media list produced by a successful `fetchMedia` select. -/
def fetchMediaRowsSorted (table : List MediaRow) : List MediaItem :=
  (table.mergeSort mediaRowDescLe).map parseMediaRow

/-- `fetchPlans`: on success replace the `plans` mirror with the sorted fetch
and clear `error`; on failure the `catch` sets `error` and changes nothing
else — in particular it adds NO toast. -/
def fetchPlans (selectOk : Bool) (remote : RemoteState) (st : AdminState) :
    AdminState × List BackendCall :=
  if selectOk then
    ({ st with plans := fetchPlansRows remote.plansTable, errorMsg := none },
     [BackendCall.selectPlans])
  else
    ({ st with errorMsg := some ("Failed to fetch plans.") }, [BackendCall.selectPlans])

/-- `fetchMedia`: same shape as `fetchPlans`, with the server-sorted select. -/
def fetchMedia (selectOk : Bool) (remote : RemoteState) (st : AdminState) :
    AdminState × List BackendCall :=
  if selectOk then
    ({ st with mediaItems := fetchMediaRowsSorted remote.mediaTable, errorMsg := none },
     [BackendCall.selectMedia])
  else
    ({ st with errorMsg := some ("Failed to fetch media.") }, [BackendCall.selectMedia])

/-- The insert payload built by `handleAddPlan`; the backend assigns `newId`,
and `created_at` is the client clock `now` (`new Date().toISOString()`). -/
def planPayloadRow (newId : String) (now : Nat) (p : NewPlanData) : PlanRow :=
  { id := newId
    name := jsTrim p.name
    price := jsTrim p.price
    features := some (normalizeFeatures p.features)
    is_primary := p.isPrimary
    created_at := some now }

/-- `handleAddPlan`: permission-gated; on insert success it re-fetches the
plans (whose own failure is caught inside `fetchPlans`) and appends a success
toast; on insert failure the `catch` appends an error toast and changes
nothing else. -/
def handleAddPlan (insertOk refetchOk : Bool) (newId : String) (now : Nat)
    (input : NewPlanData) (remote : RemoteState) (st : AdminState) :
    RemoteState × AdminState × List BackendCall :=
  if !st.isAdmin then
    let t := addToast now ("Permission Denied: You must be an administrator.") ToastType.error st.toasts
    (remote, { st with toasts := t }, [])
  else
    let row := planPayloadRow newId now input
    if !insertOk then
      let t := addToast now ("Failed to add plan. Check Supabase RLS policies.") ToastType.error st.toasts
      (remote, { st with toasts := t }, [BackendCall.insertPlan row])
    else
      let remote' := { remote with plansTable := remote.plansTable ++ [row] }
      let fp := fetchPlans refetchOk remote' st
      let t := addToast now ("Plan \"" ++ row.name ++ "\" added successfully!") ToastType.success fp.1.toasts
      (remote', { fp.1 with toasts := t }, BackendCall.insertPlan row :: fp.2)

/-- `handleDeletePlanPrompt`: when the admin flag is set, record the pending
item and open the modal; no backend call is issued. -/
def handleDeletePlanPrompt (plan : HMSPlan) (remote : RemoteState) (st : AdminState) :
    RemoteState × AdminState × List BackendCall :=
  if !st.isAdmin then (remote, st, [])
  else
    (remote,
     { st with
       itemToDelete := some { id := plan.id, type := ItemType.plan, name := plan.name }
       showDeleteModal := true },
     [])

/-- `handleDeleteMediaPrompt`: same as the plan prompt, with the media item's
`fileName` as the displayed name. -/
def handleDeleteMediaPrompt (item : MediaItem) (remote : RemoteState) (st : AdminState) :
    RemoteState × AdminState × List BackendCall :=
  if !st.isAdmin then (remote, st, [])
  else
    (remote,
     { st with
       itemToDelete := some { id := item.id, type := ItemType.media, name := item.fileName }
       showDeleteModal := true },
     [])

/-- The modal's Cancel button: `onClick={() => setShowDeleteModal(false)}` —
nothing else happens and no backend call is issued (`itemToDelete` is kept). -/
def cancelDelete (remote : RemoteState) (st : AdminState) :
    RemoteState × AdminState × List BackendCall :=
  (remote, { st with showDeleteModal := false }, [])

/-- `confirmDeletion`. The flags give the outcome of each fallible backend
call: `planDeleteOk` the plan-row delete, `lookupOk` the
`select('file_name')…single()` lookup (which also fails when no row matches),
`storageOk` the `storage.remove`, `dbOk` the catalog-row delete, `refetchOk`
the re-fetch select. `now` is the clock used for toast identifiers. The
`finally` clears `itemToDelete` on every path through the `try`/`catch`;
the early permission return happens before the `try` and keeps it. -/
def confirmDeletion (planDeleteOk lookupOk storageOk dbOk refetchOk : Bool)
    (now : Nat) (remote : RemoteState) (st : AdminState) :
    RemoteState × AdminState × List BackendCall :=
  match st.itemToDelete with
  | none => (remote, st, [])
  | some item =>
    let st := { st with showDeleteModal := false }
    if !st.isAdmin then
      let t := addToast now ("Permission Denied: You must be an administrator.") ToastType.error st.toasts
      (remote, { st with toasts := t }, [])
    else
      match item.type with
      | ItemType.plan =>
        if !planDeleteOk then
          let t := addToast now ("Failed to delete plan \"" ++ item.name ++ "\". Check RLS.") ToastType.error st.toasts
          (remote, { st with toasts := t, itemToDelete := none },
           [BackendCall.deletePlanRow item.id])
        else
          let remote' := { remote with
            plansTable := remote.plansTable.filter (fun r => r.id != item.id) }
          let fp := fetchPlans refetchOk remote' st
          let t := addToast now ("Plan \"" ++ item.name ++ "\" deleted successfully!") ToastType.success fp.1.toasts
          (remote', { fp.1 with toasts := t, itemToDelete := none },
           BackendCall.deletePlanRow item.id :: fp.2)
      | ItemType.media =>
        let lookup : Option MediaRow :=
          if lookupOk then remote.mediaTable.find? (fun r => r.id == item.id) else none
        match lookup with
        | none =>
          let t := addToast now ("Failed to delete media \"" ++ item.name ++ "\". Check RLS.") ToastType.error st.toasts
          (remote, { st with toasts := t, itemToDelete := none },
           [BackendCall.selectMediaFileName item.id])
        | some row =>
          let filePath := "public/media/" ++ row.file_name
          if !storageOk then
            let t := addToast now ("Failed to delete media \"" ++ item.name ++ "\". Check RLS.") ToastType.error st.toasts
            (remote, { st with toasts := t, itemToDelete := none },
             [BackendCall.selectMediaFileName item.id, BackendCall.storageRemove filePath])
          else
            let remote₁ := { remote with
              storagePaths := remote.storagePaths.filter (fun p => p != filePath) }
            if !dbOk then
              let t := addToast now ("Failed to delete media \"" ++ item.name ++ "\". Check RLS.") ToastType.error st.toasts
              (remote₁, { st with toasts := t, itemToDelete := none },
               [BackendCall.selectMediaFileName item.id, BackendCall.storageRemove filePath,
                BackendCall.deleteMediaRow item.id])
            else
              let remote₂ := { remote₁ with
                mediaTable := remote₁.mediaTable.filter (fun r => r.id != item.id) }
              let fm := fetchMedia refetchOk remote₂ st
              let t := addToast now ("Media \"" ++ item.name ++ "\" deleted successfully!") ToastType.success fm.1.toasts
              (remote₂, { fm.1 with toasts := t, itemToDelete := none },
               [BackendCall.selectMediaFileName item.id, BackendCall.storageRemove filePath,
                BackendCall.deleteMediaRow item.id] ++ fm.2)

/-- `handleMediaUpload`. `uploadOk` is the storage-upload outcome, `insertOk`
the catalog-row insert, `refetchOk` the re-fetch select. `tName`, `tInfo`,
`tRow` and `tDone` are the values of the successive `Date.now()` calls
(stored-name prefix, info toast, row timestamp, final toast); `errText` is
`err?.message || 'Upload failed. Check storage policies.'`; `newId` is the
backend-assigned row id and `publicUrl` the resolved public URL. The
simulated progress loop and the file-input reset have no backend effect and
are not modelled. -/
def handleMediaUpload (uploadOk insertOk refetchOk : Bool)
    (tName tInfo tRow tDone : Nat) (newId publicUrl errText : String)
    (uploadFile : Option String) (remote : RemoteState) (st : AdminState) :
    RemoteState × AdminState × List BackendCall :=
  if !st.isAdmin then
    let t := addToast tDone ("Permission Denied: You must be an administrator.") ToastType.error st.toasts
    (remote, { st with toasts := t }, [])
  else
    match uploadFile with
    | none =>
      let t := addToast tDone ("Please select a file to upload.") ToastType.error st.toasts
      (remote, { st with toasts := t }, [])
    | some name =>
      let safe := safeFileName tName name
      let path := "public/media/" ++ safe
      let ts := addToast tInfo ("Starting upload: " ++ name ++ "...") ToastType.info st.toasts
      let st₁ := { st with errorMsg := none, toasts := ts }
      if !uploadOk then
        let t := addToast tDone errText ToastType.error st₁.toasts
        (remote, { st₁ with toasts := t }, [BackendCall.storageUpload path])
      else
        let remote₁ := { remote with storagePaths := remote.storagePaths ++ [path] }
        let row : MediaRow := ⟨newId, safe, publicUrl, some tRow⟩
        if !insertOk then
          let t := addToast tDone errText ToastType.error st₁.toasts
          (remote₁, { st₁ with toasts := t },
           [BackendCall.storageUpload path, BackendCall.insertMediaRow row])
        else
          let remote₂ := { remote₁ with mediaTable := remote₁.mediaTable ++ [row] }
          let fm := fetchMedia refetchOk remote₂ st₁
          let t := addToast tDone ("Image \"" ++ name ++ "\" uploaded successfully!") ToastType.success fm.1.toasts
          (remote₂, { fm.1 with toasts := t },
           [BackendCall.storageUpload path, BackendCall.insertMediaRow row] ++ fm.2)

/-! ### The authorization gate of the dashboard shell -/

/-- The auth flags of `ProductCatalogAdmin` set by the session-check effect. -/
structure AuthState where
  authReady : Bool
  isAdmin : Bool
deriving DecidableEq, Repr

/-- The session-check effect on its success path:
`setIsAdmin(!!user); setAuthReady(true)` where `user = data?.session?.user`.
No role claim is consulted — session presence alone decides the flag. -/
def initAuth (sessionUser : Option String) : AuthState :=
  { authReady := true, isAdmin := sessionUser.isSome }

/-- The three top-level renderings of the dashboard shell. -/
inductive AdminView where
  | initializing
  | lockedOut
  | dashboard
deriving DecidableEq, Repr

/-- The render gate: `if (!authReady) return <spinner>; if (!isAdmin) return
<access denied>; return <dashboard>`. -/
def renderGate (st : AuthState) : AdminView :=
  if !st.authReady then AdminView.initializing
  else if !st.isAdmin then AdminView.lockedOut
  else AdminView.dashboard

/-! ### Claim theorems about the operations -/

/-- A concrete admin state (admin, no toasts) used by counterexamples and
witnesses. -/
def exampleState : AdminState :=
  { plans := []
    mediaItems := []
    errorMsg := none
    toasts := []
    showDeleteModal := false
    itemToDelete := none
    isAdmin := true }

/-- A concrete remote state used by counterexamples and witnesses. -/
def exampleRemote : RemoteState :=
  { plansTable := [], mediaTable := [], storagePaths := [] }

/-- Counterexample for C3: a failing `fetchPlans` select produces NO toast at
all — the failure is recorded in the `error` state variable instead — so not
every backend-call failure is converted to a Toast Notifier error message. -/
theorem fetchPlans_failure_produces_no_toast :
    (fetchPlans false exampleRemote exampleState).1.toasts = [] ∧
    (¬ ∃ t ∈ (fetchPlans false exampleRemote exampleState).1.toasts,
        t.type = ToastType.error) ∧
    (fetchPlans false exampleRemote exampleState).1.errorMsg =
      some ("Failed to fetch plans.") := by
  refine ⟨rfl, ?_, rfl⟩
  simp [fetchPlans, exampleState, exampleRemote]

/-- Amended C3: every backend-call failure is caught at the operation
boundary and does not propagate (each operation is a total function of the
call outcomes); failures of add-plan (insert), upload-media (storage upload
and catalog insert) and confirm-deletion (plan-row delete, and in the media
branch the file-name lookup, the storage remove and the catalog-row delete)
are converted to an error toast, while fetch-plans and fetch-media failures
are recorded in the `error` state variable and produce no toast; in every
case the in-memory mirrors are left unchanged (no partial success is
rendered). -/
theorem backend_failures_caught_at_boundary
    (remote : RemoteState) (st : AdminState) (newId : String) (now : Nat)
    (input : NewPlanData) (tName tInfo tRow tDone : Nat)
    (publicUrl errText fileName pid pname mid mname fname purl : String)
    (ts : Option Nat) (rest : List MediaRow)
    (insertOk lookupOk storageOk dbOk refetchOk : Bool) :
    fetchPlans false remote st =
      ({ st with errorMsg := some ("Failed to fetch plans.") },
       [BackendCall.selectPlans]) ∧
    fetchMedia false remote st =
      ({ st with errorMsg := some ("Failed to fetch media.") },
       [BackendCall.selectMedia]) ∧
    handleAddPlan false refetchOk newId now input remote { st with isAdmin := true } =
      (remote,
       { st with isAdmin := true,
                 toasts := addToast now ("Failed to add plan. Check Supabase RLS policies.")
                   ToastType.error st.toasts },
       [BackendCall.insertPlan (planPayloadRow newId now input)]) ∧
    handleMediaUpload false insertOk refetchOk tName tInfo tRow tDone newId publicUrl
        errText (some fileName) remote { st with isAdmin := true } =
      (remote,
       { st with isAdmin := true,
                 errorMsg := none,
                 toasts := addToast tDone errText ToastType.error
                   (addToast tInfo ("Starting upload: " ++ fileName ++ "...")
                     ToastType.info st.toasts) },
       [BackendCall.storageUpload ("public/media/" ++ safeFileName tName fileName)]) ∧
    handleMediaUpload true false refetchOk tName tInfo tRow tDone newId publicUrl
        errText (some fileName) remote { st with isAdmin := true } =
      ({ remote with storagePaths :=
           remote.storagePaths ++ ["public/media/" ++ safeFileName tName fileName] },
       { st with isAdmin := true,
                 errorMsg := none,
                 toasts := addToast tDone errText ToastType.error
                   (addToast tInfo ("Starting upload: " ++ fileName ++ "...")
                     ToastType.info st.toasts) },
       [BackendCall.storageUpload ("public/media/" ++ safeFileName tName fileName),
        BackendCall.insertMediaRow
          ⟨newId, safeFileName tName fileName, publicUrl, some tRow⟩]) ∧
    confirmDeletion false lookupOk storageOk dbOk refetchOk now remote
        { st with isAdmin := true,
                  itemToDelete := some ⟨pid, ItemType.plan, pname⟩ } =
      (remote,
       { st with isAdmin := true,
                 showDeleteModal := false,
                 itemToDelete := none,
                 toasts := addToast now ("Failed to delete plan \"" ++ pname ++ "\". Check RLS.")
                   ToastType.error st.toasts },
       [BackendCall.deletePlanRow pid]) ∧
    confirmDeletion planDeleteOk false storageOk dbOk refetchOk now remote
        { st with isAdmin := true,
                  itemToDelete := some ⟨mid, ItemType.media, mname⟩ } =
      (remote,
       { st with isAdmin := true,
                 showDeleteModal := false,
                 itemToDelete := none,
                 toasts := addToast now ("Failed to delete media \"" ++ mname ++ "\". Check RLS.")
                   ToastType.error st.toasts },
       [BackendCall.selectMediaFileName mid]) ∧
    confirmDeletion planDeleteOk true false dbOk refetchOk now
        { remote with mediaTable := ⟨mid, fname, purl, ts⟩ :: rest }
        { st with isAdmin := true,
                  itemToDelete := some ⟨mid, ItemType.media, mname⟩ } =
      ({ remote with mediaTable := ⟨mid, fname, purl, ts⟩ :: rest },
       { st with isAdmin := true,
                 showDeleteModal := false,
                 itemToDelete := none,
                 toasts := addToast now ("Failed to delete media \"" ++ mname ++ "\". Check RLS.")
                   ToastType.error st.toasts },
       [BackendCall.selectMediaFileName mid,
        BackendCall.storageRemove ("public/media/" ++ fname)]) ∧
    confirmDeletion planDeleteOk true true false refetchOk now
        { remote with mediaTable := ⟨mid, fname, purl, ts⟩ :: rest }
        { st with isAdmin := true,
                  itemToDelete := some ⟨mid, ItemType.media, mname⟩ } =
      ({ remote with mediaTable := ⟨mid, fname, purl, ts⟩ :: rest,
                     storagePaths := remote.storagePaths.filter
                       (fun p => p != "public/media/" ++ fname) },
       { st with isAdmin := true,
                 showDeleteModal := false,
                 itemToDelete := none,
                 toasts := addToast now ("Failed to delete media \"" ++ mname ++ "\". Check RLS.")
                   ToastType.error st.toasts },
       [BackendCall.selectMediaFileName mid,
        BackendCall.storageRemove ("public/media/" ++ fname),
        BackendCall.deleteMediaRow mid]) := by
  refine ⟨rfl, rfl, rfl, rfl, rfl, rfl, rfl, ?_, ?_⟩ <;>
    simp [confirmDeletion, List.find?]

/-- Claim C2: if the storage remove call fails during the delete-media
operation, the catalog-row delete is never issued — the remote store
(including the catalog row) and the in-memory media collection are unchanged
— and an error toast, not a success toast, is produced. -/
theorem confirmDeletion_storage_failure_aborts
    (planDeleteOk lookupOk dbOk refetchOk : Bool) (now : Nat)
    (remote : RemoteState) (st : AdminState) (mid mname : String) :
    (confirmDeletion planDeleteOk lookupOk false dbOk refetchOk now remote
        { st with isAdmin := true,
                  itemToDelete := some ⟨mid, ItemType.media, mname⟩ }).1 = remote ∧
    (confirmDeletion planDeleteOk lookupOk false dbOk refetchOk now remote
        { st with isAdmin := true,
                  itemToDelete := some ⟨mid, ItemType.media, mname⟩ }).2.1.mediaItems =
      st.mediaItems ∧
    (confirmDeletion planDeleteOk lookupOk false dbOk refetchOk now remote
        { st with isAdmin := true,
                  itemToDelete := some ⟨mid, ItemType.media, mname⟩ }).2.1.toasts =
      addToast now ("Failed to delete media \"" ++ mname ++ "\". Check RLS.")
        ToastType.error st.toasts ∧
    ∀ i : String,
      BackendCall.deleteMediaRow i ∉
        (confirmDeletion planDeleteOk lookupOk false dbOk refetchOk now remote
          { st with isAdmin := true,
                    itemToDelete := some ⟨mid, ItemType.media, mname⟩ }).2.2 := by
  simp only [confirmDeletion]
  cases hl : (if lookupOk then remote.mediaTable.find? (fun r => r.id == mid) else none) with
  | none => simp [hl]
  | some row => simp [hl]

/-- Witness for C2 at a concrete deletion of media id `"m1"`. -/
theorem confirmDeletion_storage_failure_aborts_witness :
    (confirmDeletion true true false true true 3 exampleRemote
        { exampleState with isAdmin := true,
                            itemToDelete := some ⟨"m1", ItemType.media, "pic.png"⟩ }).1 =
      exampleRemote ∧
    (confirmDeletion true true false true true 3 exampleRemote
        { exampleState with isAdmin := true,
                            itemToDelete := some ⟨"m1", ItemType.media, "pic.png"⟩ }).2.1.mediaItems =
      exampleState.mediaItems ∧
    (confirmDeletion true true false true true 3 exampleRemote
        { exampleState with isAdmin := true,
                            itemToDelete := some ⟨"m1", ItemType.media, "pic.png"⟩ }).2.1.toasts =
      addToast 3 ("Failed to delete media \"" ++ "pic.png" ++ "\". Check RLS.")
        ToastType.error exampleState.toasts ∧
    ∀ i : String,
      BackendCall.deleteMediaRow i ∉
        (confirmDeletion true true false true true 3 exampleRemote
          { exampleState with isAdmin := true,
                              itemToDelete := some ⟨"m1", ItemType.media, "pic.png"⟩ }).2.2 :=
  confirmDeletion_storage_failure_aborts true true true true 3 exampleRemote
    exampleState ("m1") ("pic.png")

/-- Claim C8: the delete-prompt handlers only record the pending item and
open the modal, issuing no backend call; the modal's Cancel closes the modal
and issues no call, leaving both in-memory collections and the remote store
unchanged. -/
theorem delete_prompts_and_cancel_issue_no_calls (plan : HMSPlan) (item : MediaItem)
    (remote : RemoteState) (st : AdminState) :
    handleDeletePlanPrompt plan remote { st with isAdmin := true } =
      (remote,
       { st with isAdmin := true,
                 itemToDelete := some ⟨plan.id, ItemType.plan, plan.name⟩,
                 showDeleteModal := true },
       []) ∧
    handleDeleteMediaPrompt item remote { st with isAdmin := true } =
      (remote,
       { st with isAdmin := true,
                 itemToDelete := some ⟨item.id, ItemType.media, item.fileName⟩,
                 showDeleteModal := true },
       []) ∧
    cancelDelete remote st = (remote, { st with showDeleteModal := false }, []) :=
  ⟨rfl, rfl, rfl⟩

/-- Claim C9: the authorized dashboard view is rendered if and only if the
session check returned a user — the `isAdmin` flag is session presence
alone, with no role check — and without a user the locked-out view renders. -/
theorem renderGate_session_presence_only :
    (∀ sessionUser : Option String,
      (initAuth sessionUser).isAdmin = sessionUser.isSome ∧
      (renderGate (initAuth sessionUser) = AdminView.dashboard ↔
        sessionUser.isSome = true)) ∧
    renderGate (initAuth none) = AdminView.lockedOut := by
  constructor
  · intro su
    cases su <;> simp [initAuth, renderGate]
  · rfl

theorem fetchPlansRows_append_perm (t : List PlanRow) (r : PlanRow) :
    List.Perm (fetchPlansRows (t ++ [r])) (fetchPlansRows t ++ [parsePlanRow r]) := by
  have h1 : List.Perm (fetchPlansRows (t ++ [r])) ((t ++ [r]).map parsePlanRow) :=
    List.mergeSort_perm _ _
  have h2 : List.Perm (t.map parsePlanRow) (fetchPlansRows t) :=
    (List.mergeSort_perm _ _).symm
  refine h1.trans ?_
  rw [List.map_append]
  exact h2.append_right _

/-- Claim C5: submitting the plan name "Basic", price "$10", features
"Wifi, Support", not primary, followed by the re-fetch, yields a plan mirror
that is — up to the sort's reordering — the previous fetch plus exactly one
new entry whose feature list is `["Wifi", "Support"]` and whose `isPrimary`
is `false`. -/
theorem handleAddPlan_roundtrip_basic (newId : String) (now : Nat)
    (remote : RemoteState) (st : AdminState) :
    List.Perm
      (handleAddPlan true true newId now ⟨"Basic", "$10", "Wifi, Support", false⟩
        remote { st with isAdmin := true }).2.1.plans
      (fetchPlansRows remote.plansTable ++
        [parsePlanRow (planPayloadRow newId now ⟨"Basic", "$10", "Wifi, Support", false⟩)]) ∧
    (handleAddPlan true true newId now ⟨"Basic", "$10", "Wifi, Support", false⟩
        remote { st with isAdmin := true }).2.1.plans.length =
      (fetchPlansRows remote.plansTable).length + 1 ∧
    (parsePlanRow (planPayloadRow newId now
        ⟨"Basic", "$10", "Wifi, Support", false⟩)).features = ["Wifi", "Support"] ∧
    (parsePlanRow (planPayloadRow newId now
        ⟨"Basic", "$10", "Wifi, Support", false⟩)).isPrimary = false := by
  have hplans :
      (handleAddPlan true true newId now ⟨"Basic", "$10", "Wifi, Support", false⟩
        remote { st with isAdmin := true }).2.1.plans =
      fetchPlansRows (remote.plansTable ++
        [planPayloadRow newId now ⟨"Basic", "$10", "Wifi, Support", false⟩]) := rfl
  have hperm := fetchPlansRows_append_perm remote.plansTable
    (planPayloadRow newId now ⟨"Basic", "$10", "Wifi, Support", false⟩)
  refine ⟨by rw [hplans]; exact hperm, ?_, ?_, rfl⟩
  · rw [hplans, hperm.length_eq, List.length_append]
    rfl
  · show parseFeatures (normalizeFeatures ("Wifi, Support")) = ["Wifi", "Support"]
    decide

end Afrodoctor
